import Mathlib

/-!
Verification of the ticktick-mcp datetime-normalization core and tool layer.

The repository contains two implementations of `normalize_datetime_for_user`
and `get_user_timezone`: the live ones in `ticktick_mcp/src/server.py` and a
parallel, unimported set in `ticktick_mcp/src/timezone_utils.py`.  Both are
embedded here (namespaces `Server` and `TZUtils`).  Python `datetime` library
behaviour (ISO-8601 parsing via `datetime.fromisoformat`, fixed-offset
`astimezone`, `strftime` formatting) is modelled by executable Lean functions
on lists of characters; timezones are modelled as fixed UTC offsets in
minutes (bounded by ±23:59 as Python's `timezone` requires), matching the
"current offset" semantics the code relies on.
-/

abbrev Chars := List Char

def isDigitCh (c : Char) : Bool := '0' ≤ c && c ≤ '9'

def isSignCh (c : Char) : Bool := c == '+' || c == '-'

/-- Model of the suffix test in `server.py`'s regex
`([+-]\d{2}:?\d{2}|Z)$`: three reversed-suffix shapes. -/
def revColon : Chars → Bool
  | b2 :: b1 :: c :: a2 :: a1 :: s :: _ =>
    isDigitCh b2 && isDigitCh b1 && (c == ':') && isDigitCh a2 && isDigitCh a1 && isSignCh s
  | _ => false

def revNoColon : Chars → Bool
  | b2 :: b1 :: a2 :: a1 :: s :: _ =>
    isDigitCh b2 && isDigitCh b1 && isDigitCh a2 && isDigitCh a1 && isSignCh s
  | _ => false

def revZ : Chars → Bool
  | z :: _ => z == 'Z'
  | _ => false

/-- `re.search(r'([+-]\d{2}:?\d{2}|Z)$', s)` from `server.py` line 148. -/
def endsWithOffsetOrZ (l : Chars) : Bool :=
  revZ l.reverse || revColon l.reverse || revNoColon l.reverse

/-- After a sign and two digits: either `:\d\d` or `\d\d`. -/
def offsetTail : Chars → Bool
  | x :: y :: z :: _ => (x == ':' && isDigitCh y && isDigitCh z) || (isDigitCh x && isDigitCh y)
  | [x, y] => isDigitCh x && isDigitCh y
  | _ => false

/-- Does `[+-]\d{2}:?\d{2}` match starting at the head of the list? -/
def matchOffsetAt : Chars → Bool
  | c :: a1 :: a2 :: rest => isSignCh c && isDigitCh a1 && isDigitCh a2 && offsetTail rest
  | _ => false

/-- Does `[+-]\d{2}:?\d{2}` match anywhere in the list? -/
def containsOffset : Chars → Bool
  | [] => false
  | c :: rest => matchOffsetAt (c :: rest) || containsOffset rest

def lastIsZ (l : Chars) : Bool := revZ l.reverse

/-- Model of the unanchored test in `timezone_utils.py` line 187:
`re.search(r'[+-]\d{2}:?\d{2}|Z$', s)`. -/
def searchOffsetOrZ (l : Chars) : Bool :=
  containsOffset l || lastIsZ l

/-- `'T' in date_str`. -/
def hasT (l : Chars) : Bool := l.any (fun c => c == 'T')

/-- A fixed-offset user timezone: offset from UTC in minutes.  Python's
`timezone` (and every `ZoneInfo` offset at a fixed instant) is strictly
between -24h and +24h in whole minutes. -/
structure UserTZ where
  offMin : Int
  lower : -1439 ≤ offMin
  upper : offMin ≤ 1439

def bangkok : UserTZ := ⟨420, by decide, by decide⟩

/-- Character for the last decimal digit of `n`. -/
def dCh (n : Nat) : Char :=
  match n % 10 with
  | 0 => '0' | 1 => '1' | 2 => '2' | 3 => '3' | 4 => '4'
  | 5 => '5' | 6 => '6' | 7 => '7' | 8 => '8' | _ => '9'

def pad2 (n : Nat) : Chars := [dCh (n / 10), dCh n]

def pad4 (n : Nat) : Chars := [dCh (n / 1000), dCh (n / 100), dCh (n / 10), dCh n]

def offAbs (tz : UserTZ) : Nat := tz.offMin.natAbs

def signCh (tz : UserTZ) : Char := if tz.offMin < 0 then '-' else '+'

/-- `datetime.now(tz).strftime('%z')`: `±HHMM`, no colon. -/
def fmtOffNoColon (tz : UserTZ) : Chars :=
  signCh tz :: pad2 (offAbs tz / 60) ++ pad2 (offAbs tz % 60)

/-- The `±HH:MM` form built in `timezone_utils.py` line 196 from the `%z`
string by reinserting a colon. -/
def fmtOffColon (tz : UserTZ) : Chars :=
  signCh tz :: pad2 (offAbs tz / 60) ++ ':' :: pad2 (offAbs tz % 60)

/-- Parsed Python `datetime` value; `off` is the tz offset in minutes. -/
structure DT where
  year : Nat
  month : Nat
  day : Nat
  hour : Nat
  minute : Nat
  second : Nat
  micro : Nat
  off : Option Int
deriving DecidableEq

def isLeap (y : Nat) : Bool := y % 4 == 0 && (y % 100 != 0 || y % 400 == 0)

def daysInMonth (y m : Nat) : Nat :=
  if m == 2 then (if isLeap y then 29 else 28)
  else if m == 4 || m == 6 || m == 9 || m == 11 then 30
  else 31

def validDate (y m d : Nat) : Bool :=
  1 ≤ y && 1 ≤ m && m ≤ 12 && 1 ≤ d && d ≤ daysInMonth y m

def readDigit (c : Char) : Option Nat :=
  if isDigitCh c then some (c.toNat - 48) else none

def read2 : Chars → Option (Nat × Chars)
  | a :: b :: r =>
    match readDigit a, readDigit b with
    | some x, some y => some (10 * x + y, r)
    | _, _ => none
  | _ => none

def read4 : Chars → Option (Nat × Chars)
  | a :: b :: c :: d :: r =>
    match readDigit a, readDigit b, readDigit c, readDigit d with
    | some x, some y, some z, some w => some (1000 * x + 100 * y + 10 * z + w, r)
    | _, _, _, _ => none
  | _ => none

def expectCh (c : Char) : Chars → Option Chars
  | x :: r => if x == c then some r else none
  | [] => none

def signOf (c : Char) : Option Int :=
  if c == '+' then some 1 else if c == '-' then some (-1) else none

def natOfDigits : Chars → Nat
  | [] => 0
  | c :: r => (c.toNat - 48) * 10 ^ r.length + natOfDigits r

/-- Fractional-second digits to microseconds (first six digits, padded). -/
def microOf (digs : Chars) : Nat :=
  natOfDigits (digs.take 6) * 10 ^ (6 - (digs.take 6).length)

/-- Parse a whole list as a UTC offset `±HH`, `±HHMM` or `±HH:MM`
(minutes result), as `fromisoformat` accepts at the end of a string. -/
def parseOff (l : Chars) : Option Int :=
  match l with
  | c :: r =>
    match signOf c, read2 r with
    | some sg, some (oh, r1) =>
      if oh ≤ 23 then
        match r1 with
        | [] => some (sg * (oh * 60))
        | rest =>
          match expectCh ':' rest with
          | some r2 =>
            (match read2 r2 with
             | some (om, []) => if om ≤ 59 then some (sg * (oh * 60 + om)) else none
             | _ => none)
          | none =>
            (match read2 rest with
             | some (om, []) => if om ≤ 59 then some (sg * (oh * 60 + om)) else none
             | _ => none)
      else none
    | _, _ => none
  | [] => none

/-- Parse fractional digits after `'.'`; at least one digit required. -/
def parseFrac (l : Chars) : Option (Nat × Chars) :=
  let digs := l.takeWhile isDigitCh
  if digs.length = 0 then none else some (microOf digs, l.dropWhile isDigitCh)

/-- Parse the time-of-day part `HH[:MM[:SS[.ffffff]]][offset]`. -/
def parseTime (l : Chars) : Option (Nat × Nat × Nat × Nat × Option Int) :=
  match read2 l with
  | none => none
  | some (h, r) =>
    if h ≤ 23 then
      match r with
      | [] => some (h, 0, 0, 0, none)
      | rest =>
        match expectCh ':' rest with
        | none => (parseOff rest).map (fun o => (h, 0, 0, 0, some o))
        | some r1 =>
          match read2 r1 with
          | none => none
          | some (mi, r2) =>
            if mi ≤ 59 then
              match r2 with
              | [] => some (h, mi, 0, 0, none)
              | rest2 =>
                match expectCh ':' rest2 with
                | none => (parseOff rest2).map (fun o => (h, mi, 0, 0, some o))
                | some r3 =>
                  match read2 r3 with
                  | none => none
                  | some (s, r4) =>
                    if s ≤ 59 then
                      match r4 with
                      | [] => some (h, mi, s, 0, none)
                      | c :: r5 =>
                        if c == '.' then
                          match parseFrac r5 with
                          | none => none
                          | some (mic, r6) =>
                            match r6 with
                            | [] => some (h, mi, s, mic, none)
                            | _ => (parseOff r6).map (fun o => (h, mi, s, mic, some o))
                        else (parseOff (c :: r5)).map (fun o => (h, mi, s, 0, some o))
                    else none
            else none
    else none

/-- Model of `datetime.fromisoformat` on the forms this code base feeds it:
`YYYY-MM-DD` optionally followed by a one-character separator and a time
with optional fractional seconds and optional UTC offset. -/
def pyFromIso (l : Chars) : Option DT :=
  match read4 l with
  | none => none
  | some (y, r0) =>
    match expectCh '-' r0 with
    | none => none
    | some r1 =>
      match read2 r1 with
      | none => none
      | some (m, r2) =>
        match expectCh '-' r2 with
        | none => none
        | some r3 =>
          match read2 r3 with
          | none => none
          | some (d, r4) =>
            if validDate y m d then
              match r4 with
              | [] => some ⟨y, m, d, 0, 0, 0, 0, none⟩
              | _sep :: r5 =>
                match parseTime r5 with
                | some (h, mi, s, mic, o) => some ⟨y, m, d, h, mi, s, mic, o⟩
                | none => none
            else none

def nextDay (y m d : Nat) : Nat × Nat × Nat :=
  if d < daysInMonth y m then (y, m, d + 1)
  else if m < 12 then (y, m + 1, 1)
  else (y + 1, 1, 1)

def prevDay (y m d : Nat) : Nat × Nat × Nat :=
  if 2 ≤ d then (y, m, d - 1)
  else if 2 ≤ m then (y, m - 1, daysInMonth y (m - 1))
  else (y - 1, 12, 31)

def shiftDay (y m d : Nat) (sh : Int) : Nat × Nat × Nat :=
  if sh = 1 then nextDay y m d else if sh = -1 then prevDay y m d else (y, m, d)

/-- Minutes-of-day of the wall-clock time shifted to UTC (may be negative
or exceed one day before renormalization). -/
def wallMin (tz : UserTZ) (dt : DT) : Int :=
  (dt.hour * 60 + dt.minute : Nat) - tz.offMin

def utcMinOfDay (tz : UserTZ) (dt : DT) : Nat :=
  ((wallMin tz dt).emod 1440).toNat

def utcYMD (tz : UserTZ) (dt : DT) : Nat × Nat × Nat :=
  shiftDay dt.year dt.month dt.day ((wallMin tz dt).ediv 1440)

/-- Model of `dt.replace(tzinfo=USER_TIMEZONE).astimezone(UTC)` for a
fixed-offset zone: shift the wall-clock minutes by the offset; `none`
models the `OverflowError` Python raises when the result leaves years
1..9999. -/
def toUTC (tz : UserTZ) (dt : DT) : Option DT :=
  if 1 ≤ (utcYMD tz dt).1 && (utcYMD tz dt).1 ≤ 9999 then
    some ⟨(utcYMD tz dt).1, (utcYMD tz dt).2.1, (utcYMD tz dt).2.2,
      utcMinOfDay tz dt / 60, utcMinOfDay tz dt % 60, dt.second, dt.micro, some 0⟩
  else none

/-- `dt_utc.strftime('%Y-%m-%dT%H:%M:%S.000Z')` without the trailing `Z`. -/
def fmtCore (dt : DT) : Chars :=
  pad4 dt.year ++ '-' :: pad2 dt.month ++ '-' :: pad2 dt.day ++
  'T' :: pad2 dt.hour ++ ':' :: pad2 dt.minute ++ ':' :: pad2 dt.second ++
  ['.', '0', '0', '0']

def fmtUTCz (dt : DT) : Chars := fmtCore dt ++ ['Z']

def t000000 : Chars := ['T', '0', '0', ':', '0', '0', ':', '0', '0']

/-- `date_str.replace("Z", "+00:00")`. -/
def replaceZ : Chars → Chars
  | [] => []
  | c :: r =>
    if c == 'Z' then '+' :: '0' :: '0' :: ':' :: '0' :: '0' :: replaceZ r
    else c :: replaceZ r

/-- The parse attempted by `server.py`'s conversion branch: the string
itself when it has a `'T'`, otherwise with `'T00:00:00'` appended. -/
def parseEffective (l : Chars) : Option DT :=
  if hasT l then pyFromIso l else pyFromIso (l ++ t000000)

/-- The `except` branch of `server.py`'s `normalize_datetime_for_user`
(lines 173-182): original string, `T00:00:00` inserted when no `'T'`,
then the bare `%z` offset. -/
def fallbackChars (tz : UserTZ) (l : Chars) : Chars :=
  (if hasT l then l else l ++ t000000) ++ fmtOffNoColon tz

def srvNormCore (tz : UserTZ) (l : Chars) : Chars :=
  if l = [] then l
  else if endsWithOffsetOrZ l then l
  else
    match parseEffective l with
    | some dt =>
      match toUTC tz dt with
      | some u => fmtUTCz u
      | none => fallbackChars tz l
    | none => fallbackChars tz l

def tzuNormCore (tz : UserTZ) (l : Chars) : Chars :=
  if l = [] then l
  else if searchOffsetOrZ l then l
  else (if hasT l then l else l ++ t000000) ++ fmtOffColon tz

namespace Server

/-- `server.py` lines 137-186. -/
def normalize_datetime_for_user (tz : UserTZ) (s : String) : String :=
  String.mk (srvNormCore tz s.data)

/-- `server.py` lines 189-198. -/
def validate_datetime_string (s : String) (field : String) : Option String :=
  if s = "" then none
  else
    match pyFromIso (replaceZ s.data) with
    | some _ => none
    | none =>
      some ("Invalid " ++ field ++
        " format. Use ISO format: YYYY-MM-DDTHH:mm:ss with timezone or YYYY-MM-DD")

end Server

namespace TZUtils

/-- `timezone_utils.py` lines 173-209. -/
def normalize_datetime_for_user (tz : UserTZ) (s : String) : String :=
  String.mk (tzuNormCore tz s.data)

/-- `timezone_utils.py` lines 216-237. -/
def validate_datetime_string (s : String) (field : String) : Option String :=
  if s = "" then none
  else
    match pyFromIso (replaceZ s.data) with
    | some _ => none
    | none =>
      some ("Invalid " ++ field ++
        " format. Use ISO format: YYYY-MM-DDTHH:mm:ss+HH:MM or YYYY-MM-DD")

end TZUtils

def truthyS : Option String → Bool
  | some s => !(s == "")
  | none => false

/-- Python `x or d` for an optional string `x`. -/
def pyOr (o : Option String) (d : String) : String :=
  if truthyS o then o.getD "" else d

/-- Python f-string rendering of an optional value (absent prints `None`). -/
def pyShow : Option String → String
  | some s => s
  | none => "None"

structure SubItem where
  status : Option Int
  title : Option String

structure TaskRec where
  id : Option String
  title : Option String
  projectId : Option String
  startDate : Option String
  dueDate : Option String
  priority : Option Int
  status : Option Int
  content : Option String
  items : List SubItem

/-- Result of a remote API call: a task record, an `{error: ...}` value, or
a raised exception (caught at the tool boundary). -/
inductive ApiResult where
  | ok : TaskRec → ApiResult
  | err : String → ApiResult
  | exn : String → ApiResult

def goodPriority (q : Int) : Bool := q == 0 || q == 1 || q == 3 || q == 5

def priorityName (p : Int) : String :=
  if p == 0 then "None"
  else if p == 1 then "Low"
  else if p == 3 then "Medium"
  else if p == 5 then "High"
  else toString p

def subtaskLines (i : Nat) : List SubItem → String
  | [] => ""
  | it :: rest =>
    toString i ++ ". [" ++ (if it.status == some 1 then "✓" else "□") ++ "] " ++
      it.title.getD "No title" ++ "\n" ++ subtaskLines (i + 1) rest

namespace Server

/-- `server.py` lines 201-236. -/
def format_task (t : TaskRec) : String :=
  "ID: " ++ t.id.getD "No ID" ++ "\n" ++
  "Title: " ++ t.title.getD "No title" ++ "\n" ++
  "Project ID: " ++ t.projectId.getD "None" ++ "\n" ++
  (if truthyS t.startDate then "Start Date: " ++ t.startDate.getD "" ++ "\n" else "") ++
  (if truthyS t.dueDate then "Due Date: " ++ t.dueDate.getD "" ++ "\n" else "") ++
  "Priority: " ++ priorityName (t.priority.getD 0) ++ "\n" ++
  "Status: " ++ (if t.status == some 2 then "Completed" else "Active") ++ "\n" ++
  (if truthyS t.content then "\nContent:\n" ++ t.content.getD "" ++ "\n" else "") ++
  (if t.items.length ≠ 0 then
    "\nSubtasks (" ++ toString t.items.length ++ "):\n" ++ subtaskLines 1 t.items
  else "")

end Server

/-- Arguments passed to `ticktick.create_task`. -/
structure CreateArgs where
  title : String
  project_id : String
  content : Option String
  start_date : Option String
  due_date : Option String
  priority : Int

/-- Arguments passed to `ticktick.update_task`. -/
structure UpdateArgs where
  task_id : String
  project_id : String
  title : Option String
  content : Option String
  start_date : Option String
  due_date : Option String
  priority : Option Int

/-- `if date_str:` followed by the inline `fromisoformat` check in
`create_task`/`update_task` (raises `ValueError` on failure). -/
def dateBad (o : Option String) : Bool :=
  truthyS o && !(pyFromIso (replaceZ (o.getD "").data)).isSome

def initFailMsg : String :=
  "Failed to initialize TickTick client. Please check your API credentials."

def invalidPriorityMsg : String :=
  "Invalid priority. Must be 0 (None), 1 (Low), 3 (Medium), or 5 (High)."

def invalidDateMsg (field : String) : String :=
  "Invalid " ++ field ++ " format. Use ISO format: YYYY-MM-DDTHH:mm:ss with timezone or YYYY-MM-DD"

namespace Server

/-- `server.py` lines 363-422.  `initOK` models whether the TickTick client
is (or can be) initialized; the second component counts remote API calls. -/
def create_task (tz : UserTZ) (initOK : Bool) (client : CreateArgs → ApiResult)
    (title project_id : String) (content start_date due_date : Option String)
    (priority : Int) : String × Nat :=
  if !initOK then (initFailMsg, 0)
  else if !(goodPriority priority) then (invalidPriorityMsg, 0)
  else
    let sd := if truthyS start_date then
        start_date.map (normalize_datetime_for_user tz) else start_date
    let dd := if truthyS due_date then
        due_date.map (normalize_datetime_for_user tz) else due_date
    if dateBad sd then (invalidDateMsg "start_date", 0)
    else if dateBad dd then (invalidDateMsg "due_date", 0)
    else
      match client ⟨title, project_id, content, sd, dd, priority⟩ with
      | .ok t => ("Task created successfully:\n\n" ++ format_task t, 1)
      | .err m => ("Error creating task: " ++ m, 1)
      | .exn m => ("Error creating task: " ++ m, 1)

/-- `server.py` lines 1129-1191. -/
def update_task (tz : UserTZ) (initOK : Bool) (client : UpdateArgs → ApiResult)
    (task_id project_id : String) (title content start_date due_date : Option String)
    (priority : Option Int) : String × Nat :=
  if !initOK then (initFailMsg, 0)
  else if (match priority with | some p => !(goodPriority p) | none => false) then
    (invalidPriorityMsg, 0)
  else
    let sd := if truthyS start_date then
        start_date.map (normalize_datetime_for_user tz) else start_date
    let dd := if truthyS due_date then
        due_date.map (normalize_datetime_for_user tz) else due_date
    if dateBad sd then (invalidDateMsg "start_date", 0)
    else if dateBad dd then (invalidDateMsg "due_date", 0)
    else
      match client ⟨task_id, project_id, title, content, sd, dd, priority⟩ with
      | .ok t => ("Task updated successfully:\n\n" ++ format_task t, 1)
      | .err m => ("Error updating task: " ++ m, 1)
      | .exn m => ("Error updating task: " ++ m, 1)

end Server

/-- A task dictionary from a batch-create request (`dict.get` fields). -/
structure TaskData where
  title : Option String
  project_id : Option String
  content : Option String
  start_date : Option String
  due_date : Option String
  priority : Option Int

/-- A list element of a batch request: a dict or something else. -/
inductive BatchItem where
  | notDict : BatchItem
  | item : TaskData → BatchItem

/-- A success record appended by `create_multiple_tasks` (always carries
`index`, `title` and `id` keys). -/
structure CSucc where
  index : Nat
  title : String
  id : Option String

/-- A failure record appended by `create_multiple_tasks`; the `title` key
is absent (`none`) for non-dict and missing-required-field failures. -/
structure CFail where
  index : Nat
  title : Option String
  error : String

/-- One iteration of the `create_multiple_tasks` loop (lines 461-543);
result plus the number of remote calls made (0 or 1). -/
def processCreate (tz : UserTZ) (client : Nat → CreateArgs → ApiResult) (i : Nat) :
    BatchItem → Sum CSucc CFail × Nat
  | .notDict => (.inr ⟨i, none, "Task must be a dictionary"⟩, 0)
  | .item d =>
    if !(truthyS d.title) then (.inr ⟨i, none, "Missing required field: title"⟩, 0)
    else if !(truthyS d.project_id) then
      (.inr ⟨i, none, "Missing required field: project_id"⟩, 0)
    else
      let title := d.title.getD ""
      let pr := d.priority.getD 0
      if !(goodPriority pr) then
        (.inr ⟨i, some title, "Invalid priority " ++ toString pr ++ ". Must be 0, 1, 3, or 5"⟩, 0)
      else
        let nsd := if truthyS d.start_date then
            d.start_date.map (Server.normalize_datetime_for_user tz) else none
        let ndd := if truthyS d.due_date then
            d.due_date.map (Server.normalize_datetime_for_user tz) else none
        match client i ⟨title, d.project_id.getD "", d.content, nsd, ndd, pr⟩ with
        | .ok t => (.inl ⟨i, title, t.id⟩, 1)
        | .err m => (.inr ⟨i, some title, m⟩, 1)
        | .exn m => (.inr ⟨i, some title, m⟩, 1)

def runCreateLoop (tz : UserTZ) (client : Nat → CreateArgs → ApiResult) :
    Nat → List BatchItem → List CSucc × List CFail × Nat
  | _, [] => ([], [], 0)
  | i, it :: rest =>
    let pr := processCreate tz client i it
    let (s, f, c) := runCreateLoop tz client (i + 1) rest
    match pr.1 with
    | .inl sr => (sr :: s, f, pr.2 + c)
    | .inr fr => (s, fr :: f, pr.2 + c)

def csuccLine (r : CSucc) : String :=
  "  " ++ toString r.index ++ ". " ++ r.title ++ " (ID: " ++ pyShow r.id ++ ")\n"

def csuccLines : List CSucc → String
  | [] => ""
  | r :: rest => csuccLine r ++ csuccLines rest

/-- `f"  {failure['index']}. {failure['title']}: {failure['error']}\n"`:
`none` models the `KeyError` raised when the record has no `title` key. -/
def cfailLine (r : CFail) : Option String :=
  match r.title with
  | some t => some ("  " ++ toString r.index ++ ". " ++ t ++ ": " ++ r.error ++ "\n")
  | none => none

def cfailLines : List CFail → Option String
  | [] => some ""
  | r :: rest =>
    match cfailLine r, cfailLines rest with
    | some a, some b => some (a ++ b)
    | _, _ => none

/-- The summary report of `create_multiple_tasks` (lines 545-564); `none`
models an uncaught `KeyError` while formatting a failure line. -/
def createSummary (s : List CSucc) (f : List CFail) (n : Nat) : Option String :=
  let head := "Batch task creation completed:\n" ++
    "✅ Successful: " ++ toString s.length ++ "/" ++ toString n ++ " tasks\n" ++
    "❌ Failed: " ++ toString f.length ++ "/" ++ toString n ++ " tasks\n\n"
  let succPart :=
    if s.length ≠ 0 then
      "Successfully created tasks:\n" ++ csuccLines (s.take 5) ++
        (if 5 < s.length then "  ... and " ++ toString (s.length - 5) ++ " more\n" else "") ++
        "\n"
    else ""
  match (if f.length ≠ 0 then cfailLines f else some "") with
  | some fls =>
    some (head ++ succPart ++ (if f.length ≠ 0 then "Failed tasks:\n" ++ fls ++ "\n" else ""))
  | none => none

namespace Server

/-- `server.py` lines 425-564; the result string is `none` when the
function raises (uncaught `KeyError` in the summary), and the second
component counts remote API calls. -/
def create_multiple_tasks (tz : UserTZ) (client : Nat → CreateArgs → ApiResult)
    (initOK : Bool) (tasks : List BatchItem) : Option String × Nat :=
  if !initOK then (some initFailMsg, 0)
  else if tasks.length = 0 then (some "No tasks provided to create.", 0)
  else if 50 < tasks.length then
    (some "Too many tasks. Maximum 50 tasks per batch for performance.", 0)
  else
    let r := runCreateLoop tz client 1 tasks
    (createSummary r.1 r.2.1 tasks.length, r.2.2)

end Server

/-- A task-update dictionary from a batch-update request. -/
structure UpdData where
  task_id : Option String
  project_id : Option String
  title : Option String
  content : Option String
  start_date : Option String
  due_date : Option String
  priority : Option Int

inductive UBatchItem where
  | notDict : UBatchItem
  | item : UpdData → UBatchItem

structure USucc where
  index : Nat
  title : String
  task_id : String

/-- Failure record of `update_task_batch`; `task_id` is absent for
non-dict and missing-required-field failures. -/
structure UFail where
  index : Nat
  task_id : Option String
  error : String

/-- Date validation and the remote call of one `update_task_batch`
iteration (after the required-field and priority checks). -/
def processUpdateRest (tz : UserTZ) (client : Nat → UpdateArgs → ApiResult) (i : Nat)
    (d : UpdData) (tid : String) : Sum USucc UFail × Nat :=
  match (if truthyS d.start_date then
      Server.validate_datetime_string (d.start_date.getD "") "start_date" else none) with
  | some e => (.inr ⟨i, some tid, e⟩, 0)
  | none =>
    match (if truthyS d.due_date then
        Server.validate_datetime_string (d.due_date.getD "") "due_date" else none) with
    | some e => (.inr ⟨i, some tid, e⟩, 0)
    | none =>
      let nsd := if truthyS d.start_date then
          d.start_date.map (Server.normalize_datetime_for_user tz) else none
      let ndd := if truthyS d.due_date then
          d.due_date.map (Server.normalize_datetime_for_user tz) else none
      match client i ⟨tid, d.project_id.getD "", d.title, d.content, nsd, ndd, d.priority⟩ with
      | .ok t => (.inl ⟨i, pyOr d.title (t.title.getD "Unknown"), tid⟩, 1)
      | .err m => (.inr ⟨i, some tid, m⟩, 1)
      | .exn m => (.inr ⟨i, some tid, m⟩, 1)

/-- One iteration of the `update_task_batch` loop (lines 604-703). -/
def processUpdate (tz : UserTZ) (client : Nat → UpdateArgs → ApiResult) (i : Nat) :
    UBatchItem → Sum USucc UFail × Nat
  | .notDict => (.inr ⟨i, none, "Update must be a dictionary"⟩, 0)
  | .item d =>
    if !(truthyS d.task_id) then (.inr ⟨i, none, "Missing required field: task_id"⟩, 0)
    else if !(truthyS d.project_id) then
      (.inr ⟨i, none, "Missing required field: project_id"⟩, 0)
    else
      let tid := d.task_id.getD ""
      match d.priority with
      | some p =>
        if !(goodPriority p) then
          (.inr ⟨i, some tid, "Invalid priority " ++ toString p ++ ". Must be 0, 1, 3, or 5"⟩, 0)
        else processUpdateRest tz client i d tid
      | none => processUpdateRest tz client i d tid

def runUpdateLoop (tz : UserTZ) (client : Nat → UpdateArgs → ApiResult) :
    Nat → List UBatchItem → List USucc × List UFail × Nat
  | _, [] => ([], [], 0)
  | i, it :: rest =>
    let pr := processUpdate tz client i it
    let (s, f, c) := runUpdateLoop tz client (i + 1) rest
    match pr.1 with
    | .inl sr => (sr :: s, f, pr.2 + c)
    | .inr fr => (s, fr :: f, pr.2 + c)

def usuccLine (r : USucc) : String :=
  "  " ++ toString r.index ++ ". " ++ r.title ++ " (ID: " ++ r.task_id ++ ")\n"

def usuccLines : List USucc → String
  | [] => ""
  | r :: rest => usuccLine r ++ usuccLines rest

/-- `f"  {failure['index']}. {failure['task_id']}: {failure['error']}\n"`:
`none` models the `KeyError` when the record has no `task_id` key. -/
def ufailLine (r : UFail) : Option String :=
  match r.task_id with
  | some t => some ("  " ++ toString r.index ++ ". " ++ t ++ ": " ++ r.error ++ "\n")
  | none => none

def ufailLines : List UFail → Option String
  | [] => some ""
  | r :: rest =>
    match ufailLine r, ufailLines rest with
    | some a, some b => some (a ++ b)
    | _, _ => none

/-- The summary report of `update_task_batch` (lines 705-724). -/
def updateSummary (s : List USucc) (f : List UFail) (n : Nat) : Option String :=
  let head := "Batch task update completed:\n" ++
    "✅ Successful: " ++ toString s.length ++ "/" ++ toString n ++ " tasks\n" ++
    "❌ Failed: " ++ toString f.length ++ "/" ++ toString n ++ " tasks\n\n"
  let succPart :=
    if s.length ≠ 0 then
      "Successfully updated tasks:\n" ++ usuccLines (s.take 5) ++
        (if 5 < s.length then "  ... and " ++ toString (s.length - 5) ++ " more\n" else "") ++
        "\n"
    else ""
  match (if f.length ≠ 0 then ufailLines f else some "") with
  | some fls =>
    some (head ++ succPart ++ (if f.length ≠ 0 then "Failed updates:\n" ++ fls ++ "\n" else ""))
  | none => none

namespace Server

/-- `server.py` lines 567-724. -/
def update_task_batch (tz : UserTZ) (client : Nat → UpdateArgs → ApiResult)
    (initOK : Bool) (updates : List UBatchItem) : Option String × Nat :=
  if !initOK then (some initFailMsg, 0)
  else if updates.length = 0 then (some "No updates provided.", 0)
  else if 50 < updates.length then
    (some "Too many task updates. Maximum 50 tasks per batch for performance.", 0)
  else
    let r := runUpdateLoop tz client 1 updates
    (updateSummary r.1 r.2.1 updates.length, r.2.2)

end Server

/-- The observable environment of `server.py`'s `get_user_timezone`:
the `TICKTICK_USER_TIMEZONE` variable, which zone names `ZoneInfo`
accepts, and the result of each system probe (`none` = the probe raised
or produced nothing). -/
structure SysEnv where
  envTz : Option String
  zoneinfoOK : String → Bool
  timedatectl : Option String
  etcTimezone : Option String
  localtimeZone : Option String
  tznameAbbrev : Option String

/-- The abbreviation table of method 4 (`server.py` lines 81-87). -/
def tz_mapping (ab : String) : Option String :=
  if ab == "PST" || ab == "PDT" then some "America/Los_Angeles"
  else if ab == "EST" || ab == "EDT" then some "America/New_York"
  else if ab == "CST" || ab == "CDT" then some "America/Chicago"
  else if ab == "MST" || ab == "MDT" then some "America/Denver"
  else if ab == "UTC" || ab == "GMT" then some "UTC"
  else none

/-- Method 4: `time.tzname` abbreviation mapped through `tz_mapping`;
any exception (including `ZoneInfo` failure) is caught by its inner
`except Exception`, after which execution reaches the UTC fallback. -/
def method4 (e : SysEnv) : String :=
  match e.tznameAbbrev with
  | none => "UTC"
  | some ab =>
    match tz_mapping ab with
    | none => "UTC"
    | some full => if e.zoneinfoOK full then full else "UTC"

/-- Methods 1-4 of system detection (`server.py` lines 44-94).  For
methods 1 and 2 a `ZoneInfo` failure on the probed name escapes the inner
`except` (which catches only subprocess/file errors) and is caught by the
outer `except Exception`, landing in the UTC fallback; method 3's inner
`except Exception` lets the cascade continue to method 4. -/
def detectSystem (e : SysEnv) : String :=
  match e.timedatectl with
  | some n => if e.zoneinfoOK n then n else "UTC"
  | none =>
    match e.etcTimezone with
    | some n => if e.zoneinfoOK n then n else "UTC"
    | none =>
      match e.localtimeZone with
      | some n => if e.zoneinfoOK n then n else method4 e
      | none => method4 e

namespace Server

/-- `server.py` lines 33-103, returning the resolved zone name.  The
terminal `ZoneInfo("UTC")` is modelled as succeeding: module import has
already constructed `ZoneInfo("UTC")` (line 31) before this function
runs (line 106). -/
def get_user_timezone (e : SysEnv) : String :=
  match e.envTz with
  | some z => if !(z == "") && e.zoneinfoOK z then z else detectSystem e
  | none => detectSystem e

end Server

/-- The string `YYYY-MM-DD` built from numeric fields. -/
def dateOnlyChars (y m d : Nat) : Chars := pad4 y ++ '-' :: pad2 m ++ '-' :: pad2 d

theorem dChFacts (n : Nat) : isDigitCh (dCh n) = true ∧ isSignCh (dCh n) = false ∧
    (dCh n == 'Z') = false ∧ (dCh n == 'T') = false ∧ (dCh n == ':') = false ∧
    (dCh n == '.') = false := by
  have h : n % 10 < 10 := Nat.mod_lt n (by decide)
  unfold dCh
  generalize n % 10 = k at h
  interval_cases k <;> decide

theorem isDigitCh_dCh (n : Nat) : isDigitCh (dCh n) = true := (dChFacts n).1

theorem isSignCh_dCh (n : Nat) : isSignCh (dCh n) = false := (dChFacts n).2.1

theorem dCh_beq_Z (n : Nat) : (dCh n == 'Z') = false := (dChFacts n).2.2.1

theorem dCh_beq_T (n : Nat) : (dCh n == 'T') = false := (dChFacts n).2.2.2.1

theorem dCh_beq_colon (n : Nat) : (dCh n == ':') = false := (dChFacts n).2.2.2.2.1

theorem readDigit_dCh (n : Nat) : readDigit (dCh n) = some (n % 10) := by
  have h : n % 10 < 10 := Nat.mod_lt n (by decide)
  unfold dCh readDigit isDigitCh
  generalize n % 10 = k at h
  interval_cases k <;> decide

theorem read2_pad2 (n : Nat) (r : Chars) (h : n < 100) : read2 (pad2 n ++ r) = some (n, r) := by
  simp only [pad2, List.cons_append, List.nil_append, read2, readDigit_dCh,
    Option.some.injEq, Prod.mk.injEq]
  exact ⟨by omega, trivial⟩

theorem read4_pad4 (n : Nat) (r : Chars) (h : n < 10000) :
    read4 (pad4 n ++ r) = some (n, r) := by
  simp only [pad4, List.cons_append, List.nil_append, read4, readDigit_dCh,
    Option.some.injEq, Prod.mk.injEq]
  exact ⟨by omega, trivial⟩

theorem isSignCh_signCh (tz : UserTZ) : isSignCh (signCh tz) = true := by
  unfold signCh isSignCh
  split <;> decide

theorem containsOffset_of_matchAt (pre post : Chars) (h : matchOffsetAt post = true) :
    containsOffset (pre ++ post) = true := by
  induction pre with
  | nil =>
    cases post with
    | nil => simp [matchOffsetAt] at h
    | cons c r => simp only [List.nil_append, containsOffset, h, Bool.true_or]
  | cons a t ih =>
    simp only [List.cons_append, containsOffset, List.append_eq, ih, Bool.or_true]

theorem containsOffset_of_revColon (l : Chars) (h : revColon l.reverse = true) :
    containsOffset l = true := by
  rw [← List.reverse_reverse l]
  generalize l.reverse = r at h ⊢
  rcases r with _ | ⟨b2, _ | ⟨b1, _ | ⟨c, _ | ⟨a2, _ | ⟨a1, _ | ⟨sg, rest⟩⟩⟩⟩⟩⟩
  · simp [revColon] at h
  · simp [revColon] at h
  · simp [revColon] at h
  · simp [revColon] at h
  · simp [revColon] at h
  · simp [revColon] at h
  · simp only [revColon, Bool.and_eq_true, beq_iff_eq] at h
    obtain ⟨⟨⟨⟨⟨hb2, hb1⟩, hc⟩, ha2⟩, ha1⟩, hsg⟩ := h
    have hl : (b2 :: b1 :: c :: a2 :: a1 :: sg :: rest).reverse =
        rest.reverse ++ [sg, a1, a2, c, b1, b2] := by simp
    rw [hl]
    apply containsOffset_of_matchAt
    subst hc
    simp [matchOffsetAt, offsetTail, hb2, hb1, ha2, ha1, hsg]

theorem containsOffset_of_revNoColon (l : Chars) (h : revNoColon l.reverse = true) :
    containsOffset l = true := by
  rw [← List.reverse_reverse l]
  generalize l.reverse = r at h ⊢
  rcases r with _ | ⟨b2, _ | ⟨b1, _ | ⟨a2, _ | ⟨a1, _ | ⟨sg, rest⟩⟩⟩⟩⟩
  · simp [revNoColon] at h
  · simp [revNoColon] at h
  · simp [revNoColon] at h
  · simp [revNoColon] at h
  · simp [revNoColon] at h
  · simp only [revNoColon, Bool.and_eq_true] at h
    obtain ⟨⟨⟨⟨hb2, hb1⟩, ha2⟩, ha1⟩, hsg⟩ := h
    have hl : (b2 :: b1 :: a2 :: a1 :: sg :: rest).reverse =
        rest.reverse ++ [sg, a1, a2, b1, b2] := by simp
    rw [hl]
    apply containsOffset_of_matchAt
    simp [matchOffsetAt, offsetTail, hb2, hb1, ha2, ha1, hsg]

theorem searchOffsetOrZ_of_endsWith (l : Chars) (h : endsWithOffsetOrZ l = true) :
    searchOffsetOrZ l = true := by
  unfold endsWithOffsetOrZ at h
  simp only [Bool.or_eq_true] at h
  unfold searchOffsetOrZ
  rcases h with (h | h) | h
  · simp [lastIsZ, h]
  · simp [containsOffset_of_revColon l h]
  · simp [containsOffset_of_revNoColon l h]

theorem replaceZ_append (a b : Chars) : replaceZ (a ++ b) = replaceZ a ++ replaceZ b := by
  induction a with
  | nil => simp [replaceZ]
  | cons c t ih =>
    simp only [List.cons_append, replaceZ, ih]
    split <;> simp [ih]

theorem replaceZ_noZ (l : Chars) (h : l.all (fun c => !(c == 'Z')) = true) :
    replaceZ l = l := by
  induction l with
  | nil => rfl
  | cons c t ih =>
    simp only [List.all_cons, Bool.and_eq_true, Bool.not_eq_true'] at h
    simp [replaceZ, h.1, ih h.2]

theorem daysInMonth_pos (y m : Nat) : 1 ≤ daysInMonth y m := by
  unfold daysInMonth
  split
  · split <;> omega
  · split <;> omega

theorem daysInMonth_twelve (y : Nat) : daysInMonth y 12 = 31 := by
  simp [daysInMonth]

theorem nextDay_valid (y m d : Nat) (hm1 : 1 ≤ m) (hm2 : m ≤ 12)
    (hd1 : 1 ≤ d) (hd2 : d ≤ daysInMonth y m) :
    1 ≤ (nextDay y m d).2.1 ∧ (nextDay y m d).2.1 ≤ 12 ∧
    1 ≤ (nextDay y m d).2.2 ∧
    (nextDay y m d).2.2 ≤ daysInMonth (nextDay y m d).1 (nextDay y m d).2.1 := by
  unfold nextDay
  split_ifs with h1 h2 <;> dsimp only
  · exact ⟨hm1, hm2, by omega, by omega⟩
  · exact ⟨by omega, by omega, by omega, daysInMonth_pos y (m + 1)⟩
  · exact ⟨by omega, by omega, by omega, daysInMonth_pos (y + 1) 1⟩

theorem prevDay_valid (y m d : Nat) (hm1 : 1 ≤ m) (hm2 : m ≤ 12)
    (hd1 : 1 ≤ d) (hd2 : d ≤ daysInMonth y m) :
    1 ≤ (prevDay y m d).2.1 ∧ (prevDay y m d).2.1 ≤ 12 ∧
    1 ≤ (prevDay y m d).2.2 ∧
    (prevDay y m d).2.2 ≤ daysInMonth (prevDay y m d).1 (prevDay y m d).2.1 := by
  unfold prevDay
  split_ifs with h1 h2 <;> dsimp only
  · exact ⟨hm1, hm2, by omega, by omega⟩
  · exact ⟨by omega, by omega, daysInMonth_pos y (m - 1), le_refl _⟩
  · exact ⟨by omega, by omega, by omega, by rw [daysInMonth_twelve]⟩

theorem shiftDay_valid (y m d : Nat) (sh : Int) (hm1 : 1 ≤ m) (hm2 : m ≤ 12)
    (hd1 : 1 ≤ d) (hd2 : d ≤ daysInMonth y m) :
    1 ≤ (shiftDay y m d sh).2.1 ∧ (shiftDay y m d sh).2.1 ≤ 12 ∧
    1 ≤ (shiftDay y m d sh).2.2 ∧
    (shiftDay y m d sh).2.2 ≤ daysInMonth (shiftDay y m d sh).1 (shiftDay y m d sh).2.1 := by
  unfold shiftDay
  split_ifs with h1 h2
  · exact nextDay_valid y m d hm1 hm2 hd1 hd2
  · exact prevDay_valid y m d hm1 hm2 hd1 hd2
  · exact ⟨hm1, hm2, hd1, hd2⟩

theorem utcMinOfDay_lt (tz : UserTZ) (dt : DT) : utcMinOfDay tz dt < 1440 := by
  unfold utcMinOfDay
  have h1 : 0 ≤ (wallMin tz dt).emod 1440 := Int.emod_nonneg _ (by decide)
  have h2 : (wallMin tz dt).emod 1440 < 1440 := Int.emod_lt_of_pos _ (by decide)
  omega

theorem toUTC_valid (tz : UserTZ) (dt u : DT)
    (hm1 : 1 ≤ dt.month) (hm2 : dt.month ≤ 12) (hd1 : 1 ≤ dt.day)
    (hd2 : dt.day ≤ daysInMonth dt.year dt.month) (hs : dt.second ≤ 59)
    (h : toUTC tz dt = some u) :
    1 ≤ u.year ∧ u.year ≤ 9999 ∧ 1 ≤ u.month ∧ u.month ≤ 12 ∧ 1 ≤ u.day ∧
    u.day ≤ daysInMonth u.year u.month ∧ u.hour ≤ 23 ∧ u.minute ≤ 59 ∧
    u.second ≤ 59 := by
  unfold toUTC at h
  split_ifs at h with hy
  · simp only [Bool.and_eq_true, decide_eq_true_eq] at hy
    have hv := shiftDay_valid dt.year dt.month dt.day ((wallMin tz dt).ediv 1440)
      hm1 hm2 hd1 hd2
    have hmd := utcMinOfDay_lt tz dt
    obtain ⟨rfl⟩ : (⟨(utcYMD tz dt).1, (utcYMD tz dt).2.1, (utcYMD tz dt).2.2,
        utcMinOfDay tz dt / 60, utcMinOfDay tz dt % 60, dt.second, dt.micro,
        some 0⟩ : DT) = u := Option.some.inj h
    refine ⟨hy.1, hy.2, hv.1, hv.2.1, hv.2.2.1, hv.2.2.2, ?_, ?_, hs⟩ <;>
      · dsimp only
        omega

theorem expectCh_self (c : Char) (r : Chars) : expectCh c (c :: r) = some r := by
  simp [expectCh]

theorem daysInMonth_le (y m : Nat) : daysInMonth y m ≤ 31 := by
  unfold daysInMonth
  split
  · split <;> omega
  · split <;> omega

theorem parse_fmt_tail (h mi s : Nat) (hh : h ≤ 23) (hmi : mi ≤ 59) (hs : s ≤ 59) :
    parseTime (pad2 h ++ ':' :: (pad2 mi ++ ':' :: (pad2 s ++ '.' :: '0' :: '0' :: '0' ::
      '+' :: '0' :: '0' :: ':' :: '0' :: '0' :: []))) = some (h, mi, s, 0, some 0) := by
  unfold parseTime
  rw [read2_pad2 h _ (by omega)]
  dsimp only
  rw [if_pos hh, expectCh_self]
  dsimp only
  rw [read2_pad2 mi _ (by omega)]
  dsimp only
  rw [if_pos hmi, expectCh_self]
  dsimp only
  rw [read2_pad2 s _ (by omega)]
  dsimp only
  rw [if_pos hs]
  rfl

theorem pyFromIso_fmt (u : DT) (h1 : 1 ≤ u.year) (h2 : u.year ≤ 9999) (h3 : 1 ≤ u.month)
    (h4 : u.month ≤ 12) (h5 : 1 ≤ u.day) (h6 : u.day ≤ daysInMonth u.year u.month)
    (h7 : u.hour ≤ 23) (h8 : u.minute ≤ 59) (h9 : u.second ≤ 59) :
    pyFromIso (fmtCore u ++ ['+', '0', '0', ':', '0', '0']) =
      some ⟨u.year, u.month, u.day, u.hour, u.minute, u.second, 0, some 0⟩ := by
  unfold fmtCore pyFromIso
  simp only [List.append_assoc, List.cons_append]
  rw [read4_pad4 u.year _ (by omega)]
  dsimp only
  rw [expectCh_self]
  dsimp only
  rw [read2_pad2 u.month _ (by omega)]
  dsimp only
  rw [expectCh_self]
  dsimp only
  rw [read2_pad2 u.day _ (by have := daysInMonth_le u.year u.month; omega)]
  dsimp only
  have hv : validDate u.year u.month u.day = true := by
    simp only [validDate, Bool.and_eq_true, decide_eq_true_eq]
    exact ⟨⟨⟨⟨h1, h3⟩, h4⟩, h5⟩, h6⟩
  rw [if_pos hv]
  simp only [List.nil_append]
  rw [parse_fmt_tail u.hour u.minute u.second h7 h8 h9]

theorem fmtCore_noZ (u : DT) : (fmtCore u).all (fun c => !(c == 'Z')) = true := by
  simp [fmtCore, pad4, pad2, dCh_beq_Z]

theorem replaceZ_fmtUTCz (u : DT) :
    replaceZ (fmtUTCz u) = fmtCore u ++ ['+', '0', '0', ':', '0', '0'] := by
  unfold fmtUTCz
  rw [replaceZ_append, replaceZ_noZ _ (fmtCore_noZ u)]
  rfl

theorem fmtUTCz_ne_nil (u : DT) : fmtUTCz u ≠ [] := by
  simp [fmtUTCz, fmtCore, pad4]

theorem validate_fmtUTCz (u : DT) (field : String) (h1 : 1 ≤ u.year)
    (h2 : u.year ≤ 9999) (h3 : 1 ≤ u.month) (h4 : u.month ≤ 12) (h5 : 1 ≤ u.day)
    (h6 : u.day ≤ daysInMonth u.year u.month) (h7 : u.hour ≤ 23)
    (h8 : u.minute ≤ 59) (h9 : u.second ≤ 59) :
    Server.validate_datetime_string (String.mk (fmtUTCz u)) field = none := by
  unfold Server.validate_datetime_string
  rw [if_neg (by simp [String.ext_iff, fmtUTCz_ne_nil u])]
  dsimp only
  rw [replaceZ_fmtUTCz, pyFromIso_fmt u h1 h2 h3 h4 h5 h6 h7 h8 h9]

theorem parseTime_bounds (l : Chars) (t : Nat × Nat × Nat × Nat × Option Int)
    (hp : parseTime l = some t) : t.1 ≤ 23 ∧ t.2.1 ≤ 59 ∧ t.2.2.1 ≤ 59 := by
  unfold parseTime at hp
  repeat' split at hp
  all_goals first
    | (cases hp <;> (refine ⟨?_, ?_, ?_⟩ <;> (dsimp only; omega)))
    | (rw [Option.map_eq_some'] at hp
       obtain ⟨o', ho, rfl⟩ := hp
       refine ⟨?_, ?_, ?_⟩ <;> (dsimp only; omega))

theorem pyFromIso_bounds (l : Chars) (dt : DT) (hp : pyFromIso l = some dt) :
    1 ≤ dt.month ∧ dt.month ≤ 12 ∧ 1 ≤ dt.day ∧
    dt.day ≤ daysInMonth dt.year dt.month ∧ dt.second ≤ 59 := by
  unfold pyFromIso at hp
  split at hp
  · cases hp
  split at hp
  · cases hp
  split at hp
  · cases hp
  split at hp
  · cases hp
  split at hp
  · cases hp
  split at hp
  on_goal 2 => cases hp
  rename_i hv
  simp only [validDate, Bool.and_eq_true, decide_eq_true_eq] at hv
  obtain ⟨⟨⟨⟨hy1, hm1⟩, hm2⟩, hd1⟩, hd2⟩ := hv
  split at hp
  · cases hp
    exact ⟨hm1, hm2, hd1, hd2, (by decide : (0 : Nat) ≤ 59)⟩
  · split at hp
    on_goal 2 => cases hp
    rename_i hpt
    have hb := parseTime_bounds _ _ hpt
    cases hp
    exact ⟨hm1, hm2, hd1, hd2, hb.2.2⟩

theorem dashFacts : (('-' : Char) == ':') = false ∧ isDigitCh '-' = false ∧
    (('-' : Char) == 'Z') = false ∧ (('-' : Char) == 'T') = false ∧
    isSignCh '-' = true := by decide

theorem dateOnly_ne_nil (y m d : Nat) : dateOnlyChars y m d ≠ [] := by
  simp [dateOnlyChars, pad4]

theorem dateOnly_noSearch (y m d : Nat) :
    searchOffsetOrZ (dateOnlyChars y m d) = false := by
  unfold dateOnlyChars searchOffsetOrZ lastIsZ
  simp only [pad4, pad2, List.cons_append, List.nil_append, List.append_assoc]
  simp [containsOffset, matchOffsetAt, offsetTail, isSignCh_dCh, isDigitCh_dCh,
    revZ, dCh_beq_Z, dashFacts.1, dashFacts.2.1, dashFacts.2.2.1, dashFacts.2.2.2.2]

theorem dateOnly_noT (y m d : Nat) : hasT (dateOnlyChars y m d) = false := by
  simp [dateOnlyChars, hasT, pad4, pad2, dCh_beq_T, dashFacts.2.2.2.1]

theorem endsWith_z (l : Chars) : endsWithOffsetOrZ (l ++ ['Z']) = true := by
  simp [endsWithOffsetOrZ, revZ, List.reverse_append]

theorem endsWith_fallback (tz : UserTZ) (l : Chars) :
    endsWithOffsetOrZ (fallbackChars tz l) = true := by
  unfold fallbackChars fmtOffNoColon endsWithOffsetOrZ
  simp [pad2, List.reverse_append, revNoColon, isDigitCh_dCh, isSignCh_signCh]

theorem matchOffsetAt_fmtOffColon (tz : UserTZ) :
    matchOffsetAt (fmtOffColon tz) = true := by
  simp [fmtOffColon, pad2, matchOffsetAt, offsetTail, isSignCh_signCh, isDigitCh_dCh]

theorem search_append_colon (tz : UserTZ) (l : Chars) :
    searchOffsetOrZ (l ++ fmtOffColon tz) = true := by
  unfold searchOffsetOrZ
  rw [containsOffset_of_matchAt l _ (matchOffsetAt_fmtOffColon tz)]
  rfl

theorem data_ne_nil_of_ne_empty (s : String) (hne : s ≠ "") : s.data ≠ [] := by
  intro h0
  apply hne
  cases s
  simp only at h0
  simp [h0]

/-- Claim C1 (counterexample): for the valid date-only input `2025-06-11`
and user timezone UTC+7, the live `server.py` `normalize_datetime_for_user`
does not return `2025-06-11T00:00:00+07:00` as the claim states; it
converts to UTC and returns `2025-06-10T17:00:00.000Z`. -/
theorem claim_C1_counterexample :
    Server.normalize_datetime_for_user bangkok "2025-06-11" = "2025-06-10T17:00:00.000Z" ∧
    Server.normalize_datetime_for_user bangkok "2025-06-11" ≠ "2025-06-11T00:00:00+07:00" :=
  ⟨by decide, by decide⟩

/-- Claim C1 (amended): for every date-only input `YYYY-MM-DD` denoting a
valid calendar date, the `timezone_utils.py` implementation of
`normalize_datetime_for_user` returns `YYYY-MM-DDT00:00:00±HH:MM` with the
date unchanged, a midnight time appended, and the resolved user timezone's
current offset; the `server.py` implementation instead converts the
instant to UTC and formats it as `YYYY-MM-DDTHH:MM:SS.000Z`. -/
theorem claim_C1_theorem (tz : UserTZ) (y m d : Nat) (hy1 : 1 ≤ y) (hy2 : y ≤ 9999)
    (hm1 : 1 ≤ m) (hm2 : m ≤ 12) (hd1 : 1 ≤ d) (hd2 : d ≤ daysInMonth y m) :
    TZUtils.normalize_datetime_for_user tz (String.mk (dateOnlyChars y m d)) =
      String.mk (dateOnlyChars y m d ++ t000000 ++ fmtOffColon tz) := by
  unfold TZUtils.normalize_datetime_for_user tzuNormCore
  rw [if_neg (by exact dateOnly_ne_nil y m d),
    if_neg (by simp [dateOnly_noSearch y m d]),
    if_neg (by simp [dateOnly_noT y m d])]

/-- Claim C1 witness: the amended statement applied at `2025-06-11` with
the Bangkok (UTC+7) timezone. -/
theorem claim_C1_witness :
    TZUtils.normalize_datetime_for_user bangkok (String.mk (dateOnlyChars 2025 6 11)) =
      String.mk (dateOnlyChars 2025 6 11 ++ t000000 ++ fmtOffColon bangkok) :=
  claim_C1_theorem bangkok 2025 6 11 (by decide) (by decide) (by decide) (by decide)
    (by decide) (by decide)

/-- Claim C2 (counterexample): with the user timezone resolved to
Asia/Bangkok, the live `server.py` `normalize_datetime_for_user` maps
`2025-06-11T15:00:00` to the UTC form `2025-06-11T08:00:00.000Z`, not to
the claimed `2025-06-11T15:00:00+07:00`. -/
theorem claim_C2_counterexample :
    Server.normalize_datetime_for_user bangkok "2025-06-11T15:00:00" =
      "2025-06-11T08:00:00.000Z" ∧
    Server.normalize_datetime_for_user bangkok "2025-06-11T15:00:00" ≠
      "2025-06-11T15:00:00+07:00" :=
  ⟨by decide, by decide⟩

/-- Claim C2 (amended): with the user timezone resolved to Asia/Bangkok
(UTC+7), the `timezone_utils.py` implementation returns
`2025-06-11T15:00:00+07:00` (wall clock kept, one offset suffix appended);
the `server.py` implementation instead converts to UTC and returns
`2025-06-11T08:00:00.000Z`. -/
theorem claim_C2_theorem :
    TZUtils.normalize_datetime_for_user bangkok "2025-06-11T15:00:00" =
      "2025-06-11T15:00:00+07:00" ∧
    Server.normalize_datetime_for_user bangkok "2025-06-11T15:00:00" =
      "2025-06-11T08:00:00.000Z" :=
  ⟨by decide, by decide⟩

/-- Claim C3: every string already ending with an explicit UTC offset
(`±HH:MM` or `±HHMM`) or a trailing `Z` is returned unchanged by both
implementations of `normalize_datetime_for_user`. -/
theorem claim_C3_theorem (tz : UserTZ) (s : String)
    (h : endsWithOffsetOrZ s.data = true) :
    Server.normalize_datetime_for_user tz s = s ∧
    TZUtils.normalize_datetime_for_user tz s = s := by
  have hne : s.data ≠ [] := by
    intro h0
    rw [h0] at h
    simp [endsWithOffsetOrZ, revZ, revColon, revNoColon] at h
  constructor
  · unfold Server.normalize_datetime_for_user srvNormCore
    rw [if_neg hne, if_pos h]
  · unfold TZUtils.normalize_datetime_for_user tzuNormCore
    rw [if_neg hne, if_pos (searchOffsetOrZ_of_endsWith s.data h)]

/-- Claim C3 witness: identity on the offset-qualified input
`2025-06-11T15:00:00+07:00`. -/
theorem claim_C3_witness :
    Server.normalize_datetime_for_user bangkok "2025-06-11T15:00:00+07:00" =
      "2025-06-11T15:00:00+07:00" ∧
    TZUtils.normalize_datetime_for_user bangkok "2025-06-11T15:00:00+07:00" =
      "2025-06-11T15:00:00+07:00" :=
  claim_C3_theorem bangkok "2025-06-11T15:00:00+07:00" (by decide)

/-- Claim C4: for every non-empty input the output of
`normalize_datetime_for_user` carries explicit offset information under
every branch (unchanged, UTC conversion, and exception fallback): the
`server.py` output always matches its trailing offset-or-`Z` regex, and
the `timezone_utils.py` output always matches its offset-search regex. -/
theorem claim_C4_theorem (tz : UserTZ) (s : String) (hne : s ≠ "") :
    endsWithOffsetOrZ (Server.normalize_datetime_for_user tz s).data = true ∧
    searchOffsetOrZ (TZUtils.normalize_datetime_for_user tz s).data = true := by
  have hd : s.data ≠ [] := data_ne_nil_of_ne_empty s hne
  constructor
  · unfold Server.normalize_datetime_for_user srvNormCore
    rw [if_neg hd]
    by_cases he : endsWithOffsetOrZ s.data = true
    · rw [if_pos he]
      exact he
    · rw [if_neg he]
      split
      · split
        · unfold fmtUTCz
          exact endsWith_z _
        · exact endsWith_fallback tz s.data
      · exact endsWith_fallback tz s.data
  · unfold TZUtils.normalize_datetime_for_user tzuNormCore
    rw [if_neg hd]
    by_cases hs : searchOffsetOrZ s.data = true
    · rw [if_pos hs]
      exact hs
    · rw [if_neg hs]
      exact search_append_colon tz _

/-- Claim C4 witness: the invariant at the date-only input `2025-06-11`
with the Bangkok timezone. -/
theorem claim_C4_witness :
    endsWithOffsetOrZ (Server.normalize_datetime_for_user bangkok "2025-06-11").data = true ∧
    searchOffsetOrZ (TZUtils.normalize_datetime_for_user bangkok "2025-06-11").data = true :=
  claim_C4_theorem bangkok "2025-06-11" (by decide)

/-- Claim C5: `server.py`'s `get_user_timezone` (a total function of the
observable environment, so it never raises and always returns a zone)
returns UTC when the explicit setting is invalid or absent and every
system detection probe fails, and an invalid explicit
`TICKTICK_USER_TIMEZONE` falls through to system detection exactly as if
the variable were unset. -/
theorem claim_C5_theorem (e : SysEnv) :
    (e.timedatectl = none → e.etcTimezone = none → e.localtimeZone = none →
      e.tznameAbbrev = none → (∀ z, e.envTz = some z → e.zoneinfoOK z = false) →
      Server.get_user_timezone e = "UTC") ∧
    (∀ z, e.envTz = some z → e.zoneinfoOK z = false →
      Server.get_user_timezone e = Server.get_user_timezone { e with envTz := none }) := by
  constructor
  · intro h1 h2 h3 h4 h5
    unfold Server.get_user_timezone detectSystem method4
    rw [h1, h2, h3, h4]
    cases he : e.envTz with
    | none => rfl
    | some z =>
      dsimp only
      rw [h5 z he]
      simp
  · intro z hz hok
    unfold Server.get_user_timezone
    rw [hz]
    dsimp only
    rw [hok]
    simp
    rfl

/-- Claim C5 witness: an environment where the explicit setting names an
invalid zone and every probe fails resolves to UTC, along the same path
as with the variable unset. -/
theorem claim_C5_witness :
    (Server.get_user_timezone
      ⟨some "Invalid/Zone", fun n => n == "UTC", none, none, none, none⟩ = "UTC") ∧
    (Server.get_user_timezone
      ⟨some "Invalid/Zone", fun n => n == "UTC", none, none, none, none⟩ =
      Server.get_user_timezone ⟨none, fun n => n == "UTC", none, none, none, none⟩) :=
  ⟨(claim_C5_theorem ⟨some "Invalid/Zone", fun n => n == "UTC", none, none, none, none⟩).1
      rfl rfl rfl rfl (fun z hz => by cases hz; decide),
   (claim_C5_theorem ⟨some "Invalid/Zone", fun n => n == "UTC", none, none, none, none⟩).2
      "Invalid/Zone" rfl (by decide)⟩

/-- Claim C6 (counterexample): `normalize_datetime_for_user` accepts and
returns the string `fooZ` unchanged (it matches the trailing-`Z` test),
yet `validate_datetime_string` rejects that very output, so validate does
not return `None` on every string normalize accepts or outputs. -/
theorem claim_C6_counterexample :
    Server.normalize_datetime_for_user bangkok "fooZ" = "fooZ" ∧
    Server.validate_datetime_string "fooZ" "due_date" =
      some "Invalid due_date format. Use ISO format: YYYY-MM-DDTHH:mm:ss with timezone or YYYY-MM-DD" :=
  ⟨by decide, by decide⟩

/-- Claim C6 (amended): `validate_datetime_string` returns `None` for
every output of `normalize_datetime_for_user`'s successful UTC-conversion
branch, returns a message naming the offending field for syntactically
malformed input such as `2025-13-40`, and returns `None` on empty input;
strings that normalize merely passes through unchanged (or stamps via its
exception fallback) are not guaranteed to validate. -/
theorem claim_C6_theorem (tz : UserTZ) (s : String) (dt u : DT) (field : String)
    (hne : s.data ≠ []) (he : endsWithOffsetOrZ s.data = false)
    (hp : parseEffective s.data = some dt) (hu : toUTC tz dt = some u) :
    Server.validate_datetime_string (Server.normalize_datetime_for_user tz s) field = none ∧
    Server.validate_datetime_string "2025-13-40" field =
      some ("Invalid " ++ field ++
        " format. Use ISO format: YYYY-MM-DDTHH:mm:ss with timezone or YYYY-MM-DD") ∧
    Server.validate_datetime_string "" field = none := by
  refine ⟨?_, ?_, ?_⟩
  · have hnorm : Server.normalize_datetime_for_user tz s = String.mk (fmtUTCz u) := by
      unfold Server.normalize_datetime_for_user srvNormCore
      rw [if_neg hne, if_neg (by simp [he]), hp]
      dsimp only
      rw [hu]
    rw [hnorm]
    have hb : 1 ≤ dt.month ∧ dt.month ≤ 12 ∧ 1 ≤ dt.day ∧
        dt.day ≤ daysInMonth dt.year dt.month ∧ dt.second ≤ 59 := by
      unfold parseEffective at hp
      split at hp
      · exact pyFromIso_bounds _ _ hp
      · exact pyFromIso_bounds _ _ hp
    have hv := toUTC_valid tz dt u hb.1 hb.2.1 hb.2.2.1 hb.2.2.2.1 hb.2.2.2.2 hu
    exact validate_fmtUTCz u field hv.1 hv.2.1 hv.2.2.1 hv.2.2.2.1 hv.2.2.2.2.1
      hv.2.2.2.2.2.1 hv.2.2.2.2.2.2.1 hv.2.2.2.2.2.2.2.1 hv.2.2.2.2.2.2.2.2
  · unfold Server.validate_datetime_string
    rw [if_neg (by decide)]
    have hn : pyFromIso (replaceZ ("2025-13-40" : String).data) = none := by decide
    rw [hn]
  · rfl

/-- Claim C6 witness: the amended statement at `2025-06-11T15:00:00`
(Bangkok), whose conversion branch yields `2025-06-11T08:00:00.000Z`. -/
theorem claim_C6_witness :
    Server.validate_datetime_string
      (Server.normalize_datetime_for_user bangkok "2025-06-11T15:00:00") "due_date" = none ∧
    Server.validate_datetime_string "2025-13-40" "due_date" =
      some ("Invalid " ++ "due_date" ++
        " format. Use ISO format: YYYY-MM-DDTHH:mm:ss with timezone or YYYY-MM-DD") ∧
    Server.validate_datetime_string "" "due_date" = none :=
  claim_C6_theorem bangkok "2025-06-11T15:00:00" ⟨2025, 6, 11, 15, 0, 0, 0, none⟩
    ⟨2025, 6, 11, 8, 0, 0, 0, some 0⟩ "due_date" (by decide) (by decide) (by decide)
    (by decide)

/-- Claim C7 (code bug): the batch loops do record each failure and keep
iterating, but the summary formatter reads `failure['title']`
(respectively `failure['task_id']`), keys that the non-dict and
missing-required-field failure records never set, so a batch containing
such an item makes `create_multiple_tasks`/`update_task_batch` raise
`KeyError` while building the report (`none` in this model) instead of
returning the aggregated summary string; zero remote calls are made. -/
theorem claim_C7_theorem :
    Server.create_multiple_tasks bangkok (fun _ _ => ApiResult.err "e") true
      [BatchItem.item ⟨none, some "proj1", none, none, none, none⟩] = (none, 0) ∧
    Server.update_task_batch bangkok (fun _ _ => ApiResult.err "e") true
      [UBatchItem.notDict] = (none, 0) :=
  ⟨by decide, by decide⟩

/-- Claim C8: every batch of more than 50 create items (respectively
update items) is rejected with the fixed maximum-per-batch message before
the loop runs, with zero remote API calls. -/
theorem claim_C8_theorem (tz : UserTZ) (ccl : Nat → CreateArgs → ApiResult)
    (ucl : Nat → UpdateArgs → ApiResult) (tasks : List BatchItem)
    (upds : List UBatchItem) (h1 : 50 < tasks.length) (h2 : 50 < upds.length) :
    Server.create_multiple_tasks tz ccl true tasks =
      (some "Too many tasks. Maximum 50 tasks per batch for performance.", 0) ∧
    Server.update_task_batch tz ucl true upds =
      (some "Too many task updates. Maximum 50 tasks per batch for performance.", 0) := by
  constructor
  · unfold Server.create_multiple_tasks
    rw [if_neg (by simp), if_neg (by omega), if_pos h1]
  · unfold Server.update_task_batch
    rw [if_neg (by simp), if_neg (by omega), if_pos h2]

/-- Claim C8 witness: batches of 51 items are rejected outright. -/
theorem claim_C8_witness :
    Server.create_multiple_tasks bangkok (fun _ _ => ApiResult.err "e") true
      (List.replicate 51 BatchItem.notDict) =
      (some "Too many tasks. Maximum 50 tasks per batch for performance.", 0) ∧
    Server.update_task_batch bangkok (fun _ _ => ApiResult.err "e") true
      (List.replicate 51 UBatchItem.notDict) =
      (some "Too many task updates. Maximum 50 tasks per batch for performance.", 0) :=
  claim_C8_theorem bangkok (fun _ _ => ApiResult.err "e") (fun _ _ => ApiResult.err "e")
    (List.replicate 51 BatchItem.notDict) (List.replicate 51 UBatchItem.notDict)
    (by simp) (by simp)

/-- Claim C9: any priority outside `{0, 1, 3, 5}` supplied to
`create_task` (or a provided priority in `update_task`) yields the fixed
"Invalid priority" message with zero remote API calls. -/
theorem claim_C9_theorem (tz : UserTZ) (ccl : CreateArgs → ApiResult)
    (ucl : UpdateArgs → ApiResult) (title project_id : String)
    (content start_date due_date : Option String) (p : Int)
    (task_id pid2 : String) (t2 c2 s2 d2 : Option String) (q : Int)
    (hp : p ∉ ([0, 1, 3, 5] : List Int)) (hq : q ∉ ([0, 1, 3, 5] : List Int)) :
    Server.create_task tz true ccl title project_id content start_date due_date p =
      (invalidPriorityMsg, 0) ∧
    Server.update_task tz true ucl task_id pid2 t2 c2 s2 d2 (some q) =
      (invalidPriorityMsg, 0) := by
  simp only [List.mem_cons, List.not_mem_nil, or_false, not_or] at hp hq
  have hgp : goodPriority p = false := by
    simp only [goodPriority, Bool.or_eq_false_iff, beq_eq_false_iff_ne]
    exact ⟨⟨⟨hp.1, hp.2.1⟩, hp.2.2.1⟩, hp.2.2.2⟩
  have hgq : goodPriority q = false := by
    simp only [goodPriority, Bool.or_eq_false_iff, beq_eq_false_iff_ne]
    exact ⟨⟨⟨hq.1, hq.2.1⟩, hq.2.2.1⟩, hq.2.2.2⟩
  constructor
  · unfold Server.create_task
    rw [if_neg (by simp), if_pos (by simp [hgp])]
  · unfold Server.update_task
    rw [if_neg (by simp), if_pos (by simp [hgq])]

/-- Claim C9 witness: priority 7 is rejected by both tools. -/
theorem claim_C9_witness :
    Server.create_task bangkok true (fun _ => ApiResult.err "e") "t" "p"
      none none none 7 = (invalidPriorityMsg, 0) ∧
    Server.update_task bangkok true (fun _ => ApiResult.err "e") "id" "p"
      none none none none (some 7) = (invalidPriorityMsg, 0) :=
  claim_C9_theorem bangkok (fun _ => ApiResult.err "e") (fun _ => ApiResult.err "e")
    "t" "p" none none none 7 "id" "p" none none none none 7 (by decide) (by decide)

/-- Claim C10: every non-empty input without a trailing offset or `Z`
whose ISO-8601 parse fails is neither rejected nor an error: the
`server.py` normalizer returns the original string (with `T00:00:00`
inserted first when the input has no `T`) with the user timezone's
current `%z` offset appended in `±HHMM` form, without a colon. -/
theorem claim_C10_theorem (tz : UserTZ) (s : String) (hne : s.data ≠ [])
    (he : endsWithOffsetOrZ s.data = false) (hp : parseEffective s.data = none) :
    Server.normalize_datetime_for_user tz s =
      String.mk ((if hasT s.data then s.data else s.data ++ t000000) ++ fmtOffNoColon tz) := by
  unfold Server.normalize_datetime_for_user srvNormCore
  rw [if_neg hne, if_neg (by simp [he]), hp]
  rfl

/-- Claim C10 witness: the malformed date `2025-13-40` under Bangkok gets
`T00:00:00` and the colon-free offset `+0700` appended. -/
theorem claim_C10_witness :
    ("2025-13-40" : String).data ≠ [] ∧
    endsWithOffsetOrZ ("2025-13-40" : String).data = false ∧
    parseEffective ("2025-13-40" : String).data = none ∧
    Server.normalize_datetime_for_user bangkok "2025-13-40" =
      String.mk ((if hasT ("2025-13-40" : String).data then ("2025-13-40" : String).data
        else ("2025-13-40" : String).data ++ t000000) ++ fmtOffNoColon bangkok) :=
  ⟨by decide, by decide, by decide,
    claim_C10_theorem bangkok "2025-13-40" (by decide) (by decide) (by decide)⟩
